import Mathlib

/-!
Shallow embedding of `build/app/apple_go.py` (class `AppleGoBuilder`), the
Apple packaging pipeline of libXray: per-architecture compiles, fat-binary
merges, framework-bundle assembly and the final xcframework assembly.

External processes are modelled by an environment `Env` giving, for every
spawned command line, its exit code and its standard output.  Every stage
returns the list of observable effects it performed (directory creation,
file copies, working-directory changes, spawned commands) together with an
`Except` result mirroring the Python exception behaviour.
-/

/-- Embedding of `os.path.join(a, b)` as used by the builder: every second
argument in the source is a relative file or directory name, so the join is
plain concatenation with a separator. -/
def pathJoin (a b : String) : String := a ++ "/" ++ b

/-- Embedding of the `AppleTarget` class: one platform, go architecture,
apple architecture, sdk and minimum version per compile target. -/
structure AppleTarget where
  platform : String
  go_arch : String
  apple_arch : String
  sdk : String
  min_version : String
deriving DecidableEq, Repr

/-- Embedding of the `AppleStaticLib` class: the sdk and the list of apple
architectures of one compiled or merged static library. -/
structure AppleStaticLib where
  sdk : String
  apple_archs : List String
deriving DecidableEq, Repr

/-- Embedding of `AppleStaticLib.lib_name`:
the f-string `f"{self.sdk}-{'-'.join(self.apple_archs)}"`. -/
def AppleStaticLib.lib_name (s : AppleStaticLib) : String :=
  s.sdk ++ "-" ++ String.intercalate "-" s.apple_archs

/-- The builder state relevant to the pipeline.  `build_dir` is the
constructor argument; `lib_dir` is provided by the external `Builder` base
class (not part of this file of the repository), so it is kept as an
abstract string field. -/
structure Builder where
  build_dir : String
  lib_dir : String
deriving DecidableEq, Repr

/-- Embedding of `self.framework_dir = os.path.join(self.lib_dir, "apple_xcframework")`. -/
def Builder.framework_dir (b : Builder) : String :=
  pathJoin b.lib_dir "apple_xcframework"

/-- Embedding of `self.lib_file = "libXray.a"`. -/
def lib_file : String := "libXray.a"

/-- Embedding of `self.lib_header_file = "libXray.h"`. -/
def lib_header_file : String := "libXray.h"

/-- Embedding of `self.ios_targets`. -/
def ios_targets : List AppleTarget :=
  [⟨"ios", "arm64", "arm64", "iphoneos", "15.0"⟩]

/-- Embedding of `self.ios_simulator_targets`. -/
def ios_simulator_targets : List AppleTarget :=
  [⟨"ios", "amd64", "x86_64", "iphonesimulator", "15.0"⟩,
   ⟨"ios", "arm64", "arm64", "iphonesimulator", "15.0"⟩]

/-- Embedding of `self.macos_targets`. -/
def macos_targets : List AppleTarget :=
  [⟨"darwin", "amd64", "x86_64", "macosx", "10.14"⟩,
   ⟨"darwin", "arm64", "arm64", "macosx", "10.14"⟩]

/-- Embedding of `self.tvos_targets`. -/
def tvos_targets : List AppleTarget :=
  [⟨"ios", "arm64", "arm64", "appletvos", "17.0"⟩]

/-- Embedding of `self.tv_simulator_targets`. -/
def tv_simulator_targets : List AppleTarget :=
  [⟨"ios", "amd64", "x86_64", "appletvsimulator", "17.0"⟩,
   ⟨"ios", "arm64", "arm64", "appletvsimulator", "17.0"⟩]

/-- Environment of the external processes: for each spawned command line,
the exit code the process returns and the text it writes to its standard
output.  A run of the pipeline is a deterministic function of this
environment and of the builder state. -/
structure Env where
  retcode : List String → Int
  stdout : List String → String

/-- Observable effects of the pipeline: directory creation, file copies,
process-global working-directory changes, spawned external commands
(with the extra environment variables passed to them), the external
lifecycle hooks, and markers for entry into the framework-assembly and
xcframework-assembly stages. -/
inductive BuildEvent where
  | mkDir (p : String)
  | copyFile (src dst : String)
  | chdir (p : String)
  | runCmd (cmd : List String) (extraEnv : List (String × String))
  | hook (name : String)
  | frameworkAssembly (lib : AppleStaticLib)
  | xcframeworkAssembly (frameworks : List String)
deriving DecidableEq, Repr

/-- Sequencing of two pipeline stages: the Python exception semantics.  If
the first stage raises, its effects stand and the second stage never runs;
otherwise the effects are concatenated. -/
def stepBind {α β : Type} (x : List BuildEvent × Except String α)
    (f : α → List BuildEvent × Except String β) :
    List BuildEvent × Except String β :=
  match x with
  | (tr, .error e) => (tr, .error e)
  | (tr, .ok a) => ((tr ++ (f a).1, (f a).2))

/-- Embedding of the Python indexing `libs[0]` used in `build`: on an empty
list it raises `IndexError`, otherwise it yields the first element. -/
def listGet0 {α : Type} : List α → List BuildEvent × Except String α
  | [] => ([], .error "IndexError: list index out of range")
  | a :: _ => ([], .ok a)

/-- The command line of the SDK locator invocation in `get_sdk_dir_path`. -/
def xcrunCmd (sdk : String) : List String :=
  ["xcrun", "--sdk", sdk, "--show-sdk-path"]

/-- The `go build` command line constructed by `run_build_cmd`; its output
file is `os.path.join(self.framework_dir, f"{sdk}-{apple_arch}", self.lib_file)`. -/
def goCmd (b : Builder) (sdk apple_arch : String) : List String :=
  ["go", "build", "-ldflags=-w",
   "-o=" ++ pathJoin (pathJoin b.framework_dir (sdk ++ "-" ++ apple_arch)) lib_file,
   "-buildmode=c-archive"]

/-- The environment entries `run_build_cmd` sets on top of the inherited
process environment before spawning the compiler. -/
def run_env (platform go_arch apple_arch sdk min_version sdk_path : String) :
    List (String × String) :=
  let min_version_flag := "-m" ++ sdk ++ "-version-min=" ++ min_version
  let flags := "-isysroot " ++ sdk_path ++ " " ++ min_version_flag ++ " -arch " ++ apple_arch
  [("GOOS", platform),
   ("GOARCH", go_arch),
   ("GOFLAGS", "-tags=" ++ platform),
   ("CC", "xcrun --sdk " ++ sdk ++ " --toolchain " ++ sdk ++ " clang"),
   ("CXX", "xcrun --sdk " ++ sdk ++ " --toolchain " ++ sdk ++ " clang++"),
   ("CGO_CFLAGS", flags),
   ("CGO_CXXFLAGS", flags),
   ("CGO_LDFLAGS", flags ++ " -Wl,-Bsymbolic-functions"),
   ("CGO_ENABLED", "1"),
   ("DARWIN_SDK", sdk)]

/-- Embedding of `ret.stdout.decode().replace("\x0a", "")`: Python
`str.replace` with a one-character pattern and an empty replacement deletes
every occurrence of that character, here every newline. -/
def replace_newlines (s : String) : String :=
  ⟨s.data.filter (fun c => c != '\n')⟩

/-- Embedding of `get_sdk_dir_path`: spawn the SDK locator, raise on a
non-zero exit, otherwise return its standard output with every newline
character removed. -/
def get_sdk_dir_path (env : Env) (sdk : String) :
    List BuildEvent × Except String String :=
  let cmd := xcrunCmd sdk
  ([.runCmd cmd []],
   if env.retcode cmd ≠ 0 then
     .error ("get_sdk_dir_path for " ++ sdk ++ " failed")
   else
     .ok (replace_newlines (env.stdout cmd)))

/-- Embedding of `run_build_cmd`: create the per-target output directory,
resolve the SDK path, change the process working directory to the library
directory, spawn `go build` with the configured environment, and raise if
the compile exits non-zero. -/
def run_build_cmd (env : Env) (b : Builder)
    (platform go_arch apple_arch sdk min_version : String) :
    List BuildEvent × Except String Unit :=
  let output_dir := pathJoin b.framework_dir (sdk ++ "-" ++ apple_arch)
  match get_sdk_dir_path env sdk with
  | (tr, .error e) => ([BuildEvent.mkDir output_dir] ++ tr, .error e)
  | (tr, .ok sdk_path) =>
    let cmd := goCmd b sdk apple_arch
    ([BuildEvent.mkDir output_dir] ++ tr
       ++ [BuildEvent.chdir b.lib_dir,
           BuildEvent.runCmd cmd (run_env platform go_arch apple_arch sdk min_version sdk_path)],
     if env.retcode cmd ≠ 0 then
       .error ("run_build_cmd for " ++ platform ++ " " ++ apple_arch ++ " " ++ sdk ++ " failed")
     else .ok ())

/-- Embedding of `build_targets`: compile each target in order, collecting
one single-architecture `AppleStaticLib` per successful compile; the first
raised exception aborts the loop. -/
def build_targets (env : Env) (b : Builder) :
    List AppleTarget → List BuildEvent × Except String (List AppleStaticLib)
  | [] => ([], .ok [])
  | t :: ts =>
    match run_build_cmd env b t.platform t.go_arch t.apple_arch t.sdk t.min_version with
    | (tr, .error e) => (tr, .error e)
    | (tr, .ok _) =>
      match build_targets env b ts with
      | (tr2, r) => (tr ++ tr2, r.map (fun libs => ⟨t.sdk, [t.apple_arch]⟩ :: libs))

/-- Embedding of the architecture computation in `merge_static_lib`:
`arches = list(set(flattened)); arches.sort()` produces the sorted list of
the distinct input architectures.  Python sorts strings by code points,
which is the lexicographic order on the underlying character lists. -/
def merge_arches (libs : List AppleStaticLib) : List String :=
  List.insertionSort (fun a b : String => a.data ≤ b.data)
    ((libs.flatMap AppleStaticLib.apple_archs).dedup)

/-- The artifact returned by `merge_static_lib`: the sdk is taken from
`libs[0]` only, the architectures are the sorted distinct union. -/
def mergeArtifact (libs : List AppleStaticLib) : AppleStaticLib :=
  ⟨(libs.headD ⟨"", []⟩).sdk, merge_arches libs⟩

/-- The output archive path written by `merge_static_lib`:
`os.path.join(self.framework_dir, f"{sdk}-{arch}", self.lib_file)` with
`arch = "-".join(arches)` and `sdk = libs[0].sdk`. -/
def mergeOutputFile (b : Builder) (libs : List AppleStaticLib) : String :=
  pathJoin
    (pathJoin b.framework_dir
      ((libs.headD ⟨"", []⟩).sdk ++ "-" ++ String.intercalate "-" (merge_arches libs)))
    lib_file

/-- The `lipo` command line constructed by `merge_static_lib`: `-create`,
one `-arch <arch> <path>` pair per architecture in sorted order, then
`-output <path>`. -/
def mergeCmd (b : Builder) (libs : List AppleStaticLib) : List String :=
  ["lipo", "-create"]
  ++ (merge_arches libs).flatMap (fun arch =>
       ["-arch", arch,
        pathJoin (pathJoin b.framework_dir ((libs.headD ⟨"", []⟩).sdk ++ "-" ++ arch)) lib_file])
  ++ ["-output", mergeOutputFile b libs]

/-- Embedding of `merge_static_lib`: on an empty list the access `libs[0]`
raises `IndexError`; otherwise the output directory is created, `lipo` is
spawned, a non-zero exit raises, and the merged artifact is returned. -/
def merge_static_lib (env : Env) (b : Builder) (libs : List AppleStaticLib) :
    List BuildEvent × Except String AppleStaticLib :=
  match libs with
  | [] => ([], .error "IndexError: list index out of range")
  | l0 :: rest =>
    let cmd := mergeCmd b (l0 :: rest)
    ([BuildEvent.mkDir
        (pathJoin b.framework_dir
          (l0.sdk ++ "-" ++ String.intercalate "-" (merge_arches (l0 :: rest)))),
      BuildEvent.runCmd cmd []],
     if env.retcode cmd ≠ 0 then
       .error ("merge_static_lib for " ++ l0.sdk ++ " failed")
     else .ok (mergeArtifact (l0 :: rest)))

/-- The bundle directory built by `create_framework`:
`os.path.join(self.framework_dir, lib_name, "LibXray.framework")`. -/
def frameworkBundleDir (b : Builder) (lib : AppleStaticLib) : String :=
  pathJoin (pathJoin b.framework_dir lib.lib_name) "LibXray.framework"

/-- Embedding of `create_framework`: create the bundle directory, copy the
metadata template into it, create the `Headers` directory, copy the header
produced for the first listed architecture into it, and copy the static
library to the bundle root under the extension-free name `LibXray`.  The
access `lib.apple_archs[0]` raises `IndexError` when the architecture list
is empty, after the first three filesystem effects have happened. -/
def create_framework (b : Builder) (lib : AppleStaticLib) :
    List BuildEvent × Except String Unit :=
  let lib_name := lib.lib_name
  let bundle := frameworkBundleDir b lib
  let info_plist := pathJoin (pathJoin b.build_dir "template") "AppleGoInfo.plist"
  let include_dir := pathJoin bundle "Headers"
  let pre : List BuildEvent :=
    [BuildEvent.frameworkAssembly lib,
     BuildEvent.mkDir bundle,
     BuildEvent.copyFile info_plist bundle,
     BuildEvent.mkDir include_dir]
  match lib.apple_archs with
  | [] => (pre, .error "IndexError: list index out of range")
  | arch0 :: _ =>
    let header_file :=
      pathJoin (pathJoin b.framework_dir (lib.sdk ++ "-" ++ arch0)) lib_header_file
    let lib_src := pathJoin (pathJoin b.framework_dir lib_name) lib_file
    let lib_dst := pathJoin bundle "LibXray"
    (pre ++ [BuildEvent.copyFile header_file include_dir,
             BuildEvent.copyFile lib_src lib_dst],
     .ok ())

/-- The `xcodebuild` command line constructed by `create_xcframework`. -/
def xcframeworkCmd (b : Builder) (libs : List AppleStaticLib) : List String :=
  ["xcodebuild", "-create-xcframework"]
  ++ (libs.map (frameworkBundleDir b)).flatMap (fun f => ["-framework", f])
  ++ ["-output", pathJoin b.lib_dir "LibXray.xcframework"]

/-- Embedding of `create_xcframework`: spawn the packaging tool once with
one framework path per input, in input order, raising on non-zero exit. -/
def create_xcframework (env : Env) (b : Builder) (libs : List AppleStaticLib) :
    List BuildEvent × Except String Unit :=
  let cmd := xcframeworkCmd b libs
  ([BuildEvent.xcframeworkAssembly (libs.map (frameworkBundleDir b)),
    BuildEvent.runCmd cmd []],
   if env.retcode cmd ≠ 0 then .error "create_framework failed" else .ok ())

/-- Modelled from the spec: the lifecycle collaborators invoked by
`before_build` (`reset_files`, the base-class `before_build`,
`clean_lib_dirs`, `prepare_static_lib`) live in the external `Builder` base
class and helper module, which are not part of this source file.  Per the
spec they are plumbing that prepares the source tree, performs no
framework-assembly or xcframework-assembly operation, and is safe to call
once per build; they are modelled as always-succeeding opaque hook events. -/
def before_build : List BuildEvent × Except String Unit :=
  ([BuildEvent.hook "reset_files",
    BuildEvent.hook "Builder.before_build",
    BuildEvent.hook "clean_lib_dirs LibXray.xcframework",
    BuildEvent.hook "prepare_static_lib"], .ok ())

/-- Modelled from the spec: the base-class `after_build` and `reset_files`
invoked by the overridden `after_build` are external plumbing hooks,
modelled as always-succeeding opaque hook events. -/
def after_build : List BuildEvent × Except String Unit :=
  ([BuildEvent.hook "Builder.after_build",
    BuildEvent.hook "reset_files"], .ok ())

/-- Embedding of `build`: the five platform groups in fixed order, each
compiled, merged when the group has more than one target, and packaged as
a framework; then the lifecycle epilogue; then the single xcframework
assembly over the five artifacts in the same fixed order. -/
def build (env : Env) (b : Builder) : List BuildEvent × Except String Unit :=
  stepBind before_build (fun _ =>
  stepBind (build_targets env b ios_targets) (fun ios_libs =>
  stepBind (listGet0 ios_libs) (fun ios_lib =>
  stepBind (create_framework b ios_lib) (fun _ =>
  stepBind (build_targets env b ios_simulator_targets) (fun ios_simulator_libs =>
  stepBind (merge_static_lib env b ios_simulator_libs) (fun ios_simulator_lib =>
  stepBind (create_framework b ios_simulator_lib) (fun _ =>
  stepBind (build_targets env b macos_targets) (fun macos_libs =>
  stepBind (merge_static_lib env b macos_libs) (fun macos_lib =>
  stepBind (create_framework b macos_lib) (fun _ =>
  stepBind (build_targets env b tvos_targets) (fun tvos_libs =>
  stepBind (listGet0 tvos_libs) (fun tvos_lib =>
  stepBind (create_framework b tvos_lib) (fun _ =>
  stepBind (build_targets env b tv_simulator_targets) (fun tv_simulator_libs =>
  stepBind (merge_static_lib env b tv_simulator_libs) (fun tv_simulator_lib =>
  stepBind (create_framework b tv_simulator_lib) (fun _ =>
  stepBind after_build (fun _ =>
  create_xcframework env b
    [ios_lib, ios_simulator_lib, macos_lib, tvos_lib, tv_simulator_lib])))))))))))))))))

/-- Event classifier: entry into the framework-assembly stage. -/
def BuildEvent.isFrameworkAssembly : BuildEvent → Bool
  | .frameworkAssembly _ => true
  | _ => false

/-- Event classifier: entry into the xcframework-assembly stage. -/
def BuildEvent.isXCFrameworkAssembly : BuildEvent → Bool
  | .xcframeworkAssembly _ => true
  | _ => false

/-- Event projection: the artifact a framework-assembly stage received. -/
def BuildEvent.frameworkLib : BuildEvent → Option AppleStaticLib
  | .frameworkAssembly l => some l
  | _ => none

/-- Event projection: the ordered framework paths the xcframework-assembly
stage received. -/
def BuildEvent.xcfInputs : BuildEvent → Option (List String)
  | .xcframeworkAssembly fs => some fs
  | _ => none

/-- Event classifier: a spawned `go build` compile. -/
def BuildEvent.isGoBuild : BuildEvent → Bool
  | .runCmd ("go" :: _) _ => true
  | _ => false

/-- Event classifier: a spawned `lipo` merge. -/
def BuildEvent.isLipo : BuildEvent → Bool
  | .runCmd ("lipo" :: _) _ => true
  | _ => false

/-- Event classifier: a change of the process-global working directory. -/
def BuildEvent.isChdir : BuildEvent → Bool
  | .chdir _ => true
  | _ => false

/-- Event classifier: any spawned external command. -/
def BuildEvent.isRunCmd : BuildEvent → Bool
  | .runCmd _ _ => true
  | _ => false

/-- Event projection: the command line of a spawned `lipo` merge. -/
def BuildEvent.lipoCmd : BuildEvent → Option (List String)
  | .runCmd ("lipo" :: rest) _ => some ("lipo" :: rest)
  | _ => none

/-- Event projection: the command line of a spawned `xcodebuild` packaging. -/
def BuildEvent.xcodebuildCmd : BuildEvent → Option (List String)
  | .runCmd ("xcodebuild" :: rest) _ => some ("xcodebuild" :: rest)
  | _ => none

/-- The five platform groups in the fixed order `build` runs them. -/
def groups : List (List AppleTarget) :=
  [ios_targets, ios_simulator_targets, macos_targets, tvos_targets, tv_simulator_targets]

/-- The single-architecture artifacts `build_targets` produces for a group. -/
def group_libs (ts : List AppleTarget) : List AppleStaticLib :=
  ts.map (fun t => ⟨t.sdk, [t.apple_arch]⟩)

/-- The five artifacts handed to `create_framework` during a full build, in
group order: the sole compile artifact for the single-target groups and the
merged artifact for the multi-target groups. -/
def pipeline_libs : List AppleStaticLib :=
  [⟨"iphoneos", ["arm64"]⟩,
   mergeArtifact (group_libs ios_simulator_targets),
   mergeArtifact (group_libs macos_targets),
   ⟨"appletvos", ["arm64"]⟩,
   mergeArtifact (group_libs tv_simulator_targets)]

/-- The two command lines a single compile spawns, in order: the SDK
locator, then the compiler. -/
def compile_cmds (b : Builder) (t : AppleTarget) : List (List String) :=
  [xcrunCmd t.sdk, goCmd b t.sdk t.apple_arch]

/-- Every command line a fully successful group spawns, in order. -/
def group_cmds (b : Builder) (ts : List AppleTarget) : List (List String) :=
  ts.flatMap (compile_cmds b)
  ++ (if 1 < ts.length then [mergeCmd b (group_libs ts)] else [])

/-- A placeholder target used only to give list lookups a default. -/
def dummyTarget : AppleTarget := ⟨"", "", "", "", ""⟩

/-- The target of group `g`, position `j`, of the fixed group table. -/
def target_at (g j : Nat) : AppleTarget :=
  (groups.getD g []).getD j dummyTarget

/-- Every command line spawned before the compiler invocation of the
target at group `g`, position `j`, in a run where all of them succeed:
all commands of the earlier groups, the compiles of the earlier targets of
group `g`, and the SDK-locator call of the failing target itself. -/
def cmds_before_compile (b : Builder) (g j : Nat) : List (List String) :=
  ((groups.take g).flatMap (group_cmds b))
  ++ (((groups.getD g []).take j).flatMap (compile_cmds b))
  ++ [xcrunCmd (target_at g j).sdk]

/-- The compiler command line of the target at group `g`, position `j`. -/
def failing_go_cmd (b : Builder) (g j : Nat) : List String :=
  goCmd b (target_at g j).sdk (target_at g j).apple_arch

/-- A concrete builder for witnesses. -/
def b0 : Builder := ⟨"BUILD", "LIB"⟩

/-- An environment in which every external command succeeds with empty
output. -/
def env_allok : Env := ⟨fun _ => 0, fun _ => ""⟩

/-- An environment whose SDK locator prints a path with an interior and a
trailing newline. -/
def env_interior_newline : Env := ⟨fun _ => 0, fun _ => "/a\nb\n"⟩

/-- An environment whose SDK locator prints a path followed by a single
trailing newline. -/
def env_trailing_newline : Env := ⟨fun _ => 0, fun _ => "/sdk\n"⟩

/-- An environment in which exactly the iOS-device compile exits non-zero
and every other command succeeds. -/
def env_fail_ios_compile : Env :=
  ⟨fun c => if c = goCmd b0 "iphoneos" "arm64" then 1 else 0, fun _ => ""⟩

/-- Trimming as worded by the spec sentence under test: remove only a
single trailing newline character. -/
def trimTrailingNewline (s : String) : String :=
  if s.data.getLast? = some '\n' then ⟨s.data.dropLast⟩ else s

/-! Order facts about the sort comparator: Python compares strings by code
points, which is the lexicographic order on the underlying character
lists. -/

instance : IsTotal String (fun a b : String => a.data ≤ b.data) :=
  ⟨fun a b => le_total a.data b.data⟩

instance : IsTrans String (fun a b : String => a.data ≤ b.data) :=
  ⟨fun _ _ _ hab hbc => le_trans hab hbc⟩

instance : IsAntisymm String (fun a b : String => a.data ≤ b.data) :=
  ⟨fun a b hab hba => by
    cases a
    cases b
    exact congrArg String.mk (le_antisymm hab hba)⟩

/-- The sorted architecture list of a merge is sorted for the code-point
comparator. -/
lemma sorted_merge_arches (libs : List AppleStaticLib) :
    List.Sorted (fun a b : String => a.data ≤ b.data) (merge_arches libs) :=
  List.sorted_insertionSort _ _

/-- The sorted architecture list of a merge has no duplicates. -/
lemma nodup_merge_arches (libs : List AppleStaticLib) : (merge_arches libs).Nodup :=
  (List.perm_insertionSort _ _).symm.nodup (List.nodup_dedup _)

/-- Membership in the merged architecture list is membership in some input
architecture list. -/
lemma mem_merge_arches {a : String} {libs : List AppleStaticLib} :
    a ∈ merge_arches libs ↔ ∃ l ∈ libs, a ∈ l.apple_archs := by
  unfold merge_arches
  rw [List.mem_insertionSort, List.mem_dedup, List.mem_flatMap]

/-- The merged architecture list only depends on the multiset of inputs. -/
lemma merge_arches_perm {libs libs' : List AppleStaticLib} (h : libs'.Perm libs) :
    merge_arches libs' = merge_arches libs := by
  apply List.eq_of_perm_of_sorted _ (sorted_merge_arches _) (sorted_merge_arches _)
  exact (List.perm_insertionSort _ _).trans
    ((List.Perm.dedup (List.Perm.flatMap_right AppleStaticLib.apple_archs h)).trans
      (List.perm_insertionSort _ _).symm)

/-- The default-valued head of a non-empty list is a member. -/
lemma headD_mem {l : List AppleStaticLib} (h : l ≠ []) (d : AppleStaticLib) :
    l.headD d ∈ l := by
  cases l with
  | nil => exact absurd rfl h
  | cons x xs => exact List.mem_cons_self x xs

/-- Rewriting the sdk of every non-head input changes no architecture. -/
lemma flatMap_archs_map_sdk (rest : List AppleStaticLib) (f : AppleStaticLib → String) :
    (rest.map (fun l => (⟨f l, l.apple_archs⟩ : AppleStaticLib))).flatMap
        AppleStaticLib.apple_archs
      = rest.flatMap AppleStaticLib.apple_archs := by
  induction rest with
  | nil => rfl
  | cons x xs ih => simp only [List.map_cons, List.flatMap_cons, ih]

/-- Rewriting the sdk of every non-head input changes the merged
architecture list not at all. -/
lemma merge_arches_map_sdk (l0 : AppleStaticLib) (rest : List AppleStaticLib)
    (f : AppleStaticLib → String) :
    merge_arches (l0 :: rest.map (fun l => ⟨f l, l.apple_archs⟩))
      = merge_arches (l0 :: rest) := by
  unfold merge_arches
  rw [List.flatMap_cons, List.flatMap_cons, flatMap_archs_map_sdk]

/-- C5: the canonical artifact name is the pure deterministic function
name(sdk, archs) = sdk ++ "-" ++ join(archs, "-"); in particular for sdk
"iphonesimulator" and archs ["arm64", "x86_64"] it is
"iphonesimulator-arm64-x86_64". -/
theorem C5_lib_name_pure :
    (∀ (sdk : String) (archs : List String),
      (AppleStaticLib.mk sdk archs).lib_name = sdk ++ "-" ++ String.intercalate "-" archs)
    ∧ (AppleStaticLib.mk "iphonesimulator" ["arm64", "x86_64"]).lib_name
        = "iphonesimulator-arm64-x86_64" :=
  ⟨fun _ _ => rfl, by decide⟩

/-- C9: `get_sdk_dir_path` removes every newline character of the locator
output, not only a trailing one: on output "/a\nb\n" the interior newline
is deleted as well, yielding "/ab", and in general no newline survives. -/
theorem C9_replace_removes_all_newlines :
    (get_sdk_dir_path env_interior_newline "iphoneos").2 = Except.ok "/ab"
    ∧ replace_newlines "/a\nb\n" = "/ab"
    ∧ ∀ s : String, (replace_newlines s).data.all (fun c => c != '\n') = true := by
  refine ⟨?_, by decide, ?_⟩
  · simp [get_sdk_dir_path, env_interior_newline,
      show replace_newlines "/a\nb\n" = "/ab" from by decide]
  · intro s
    rw [List.all_eq_true]
    intro c hc
    exact (List.mem_filter.mp hc).2

/-- C6 counterexample: the locator output "/a\nb\n" ends in a single
newline, trimming only the trailing newline would give "/a\nb", but the
code returns "/ab". -/
theorem C6_counterexample :
    ("/a\nb\n" : String).data.getLast? = some '\n'
    ∧ trimTrailingNewline "/a\nb\n" = "/a\nb"
    ∧ (get_sdk_dir_path env_interior_newline "iphoneos").2 = Except.ok "/ab"
    ∧ (get_sdk_dir_path env_interior_newline "iphoneos").2
        ≠ Except.ok (trimTrailingNewline "/a\nb\n") := by
  have h3 : (get_sdk_dir_path env_interior_newline "iphoneos").2 = Except.ok "/ab" := by
    simp [get_sdk_dir_path, env_interior_newline,
      show replace_newlines "/a\nb\n" = "/ab" from by decide]
  have htrim : trimTrailingNewline "/a\nb\n" = "/a\nb" := by decide
  refine ⟨by decide, htrim, h3, ?_⟩
  rw [h3, htrim]
  intro hc
  injection hc with hc'
  exact absurd hc' (by decide)

/-- C6 amended: `get_sdk_dir_path` returns the locator output with every
newline character removed (which, for an output whose characters other
than a single trailing newline contain no newline, equals trimming the
trailing newline), and a non-zero locator exit raises a fatal error
instead of returning a path. -/
theorem C6_amended_strip_newlines (env : Env) (sdk : String) :
    (get_sdk_dir_path env sdk).2
      = (if env.retcode (xcrunCmd sdk) ≠ 0 then
           Except.error ("get_sdk_dir_path for " ++ sdk ++ " failed")
         else Except.ok (replace_newlines (env.stdout (xcrunCmd sdk))))
    ∧ ∀ s : String, (∀ c ∈ s.data, c ≠ '\n') → replace_newlines (s ++ "\n") = s := by
  refine ⟨rfl, ?_⟩
  intro s hs
  unfold replace_newlines
  rw [String.data_append]
  have h2 : s.data.filter (fun c => c != '\n') = s.data :=
    List.filter_eq_self.mpr (fun a ha => by simpa using hs a ha)
  have h3 : (("\n" : String)).data = ['\n'] := rfl
  have h4 : List.filter (fun c => c != '\n') ['\n'] = [] := rfl
  rw [h3, List.filter_append, h2, h4, List.append_nil]

/-- C6 witness: on a locator printing "/sdk" plus a single trailing
newline with exit code zero, the resolver returns "/sdk". -/
theorem C6_witness :
    (get_sdk_dir_path env_trailing_newline "iphoneos").2 = Except.ok "/sdk"
    ∧ replace_newlines ("/sdk" ++ "\n") = "/sdk" := by
  have h := C6_amended_strip_newlines env_trailing_newline "iphoneos"
  refine ⟨?_, h.2 "/sdk" (by decide)⟩
  rw [h.1]
  simp [env_trailing_newline,
    show replace_newlines "/sdk\n" = "/sdk" from by decide]

/-- C8: `merge_static_lib` checks no shared-SDK precondition: on any
non-empty input list, mismatched sdks included, it raises nothing beyond a
tool failure, returns an artifact labelled with the sdk of the first input
only, writes its output under that sdk, and both the command line and the
returned artifact are unchanged when the sdk of every non-first input is
rewritten arbitrarily. -/
theorem C8_merge_unchecked_sdk (env : Env) (b : Builder) (l0 : AppleStaticLib)
    (rest : List AppleStaticLib) (h : env.retcode (mergeCmd b (l0 :: rest)) = 0) :
    (merge_static_lib env b (l0 :: rest)).2 = Except.ok (mergeArtifact (l0 :: rest))
    ∧ (mergeArtifact (l0 :: rest)).sdk = l0.sdk
    ∧ mergeOutputFile b (l0 :: rest)
        = pathJoin (pathJoin b.framework_dir
            (l0.sdk ++ "-" ++ String.intercalate "-" (merge_arches (l0 :: rest)))) lib_file
    ∧ ∀ f : AppleStaticLib → String,
        mergeCmd b (l0 :: rest.map (fun l => ⟨f l, l.apple_archs⟩)) = mergeCmd b (l0 :: rest)
        ∧ mergeArtifact (l0 :: rest.map (fun l => ⟨f l, l.apple_archs⟩))
            = mergeArtifact (l0 :: rest) := by
  refine ⟨by simp [merge_static_lib, h], rfl, rfl, fun f => ⟨?_, ?_⟩⟩
  · simp only [mergeCmd, mergeOutputFile, List.headD_cons, merge_arches_map_sdk]
  · simp only [mergeArtifact, List.headD_cons, merge_arches_map_sdk]

/-- C8 witness: merging a macosx input with an iphoneos input raises no
error and yields an artifact labelled macosx, the sdk of the first input. -/
theorem C8_witness :
    (merge_static_lib env_allok b0
        [⟨"macosx", ["x86_64"]⟩, ⟨"iphoneos", ["arm64"]⟩]).2
      = Except.ok ⟨"macosx", ["arm64", "x86_64"]⟩ := by
  have h := C8_merge_unchecked_sdk env_allok b0 ⟨"macosx", ["x86_64"]⟩
    [⟨"iphoneos", ["arm64"]⟩] rfl
  rw [h.1]
  have : mergeArtifact [(⟨"macosx", ["x86_64"]⟩ : AppleStaticLib), ⟨"iphoneos", ["arm64"]⟩]
      = ⟨"macosx", ["arm64", "x86_64"]⟩ := by decide
  rw [this]

/-- C4: for an artifact with a first architecture, `create_framework`
performs exactly these effects, in order: create the bundle directory
named by the canonical artifact name, copy the fixed metadata template
into it, create its `Headers` directory, copy into `Headers` the header
produced for the first listed architecture, and copy the static library
to the bundle root under the extension-free name `LibXray`; it spawns no
external command and changes no working directory. -/
theorem C4_create_framework_contents (b : Builder) (lib : AppleStaticLib)
    (arch0 : String) (rest : List String) (h : lib.apple_archs = arch0 :: rest) :
    create_framework b lib
      = ([BuildEvent.frameworkAssembly lib,
          BuildEvent.mkDir (frameworkBundleDir b lib),
          BuildEvent.copyFile (pathJoin (pathJoin b.build_dir "template") "AppleGoInfo.plist")
            (frameworkBundleDir b lib),
          BuildEvent.mkDir (pathJoin (frameworkBundleDir b lib) "Headers"),
          BuildEvent.copyFile
            (pathJoin (pathJoin b.framework_dir (lib.sdk ++ "-" ++ arch0)) lib_header_file)
            (pathJoin (frameworkBundleDir b lib) "Headers"),
          BuildEvent.copyFile (pathJoin (pathJoin b.framework_dir lib.lib_name) lib_file)
            (pathJoin (frameworkBundleDir b lib) "LibXray")],
         Except.ok ())
    ∧ ∀ ev ∈ (create_framework b lib).1, ev.isRunCmd = false ∧ ev.isChdir = false := by
  obtain ⟨sdk, archs⟩ := lib
  have h' : archs = arch0 :: rest := h
  subst h'
  refine ⟨rfl, ?_⟩
  intro ev hev
  simp only [create_framework] at hev
  simp only [List.cons_append, List.nil_append, List.mem_cons, List.not_mem_nil,
    or_false] at hev
  rcases hev with rfl | rfl | rfl | rfl | rfl | rfl <;> exact ⟨rfl, rfl⟩

/-- C4 witness: the effects of `create_framework` on the merged macosx
artifact, fully evaluated. -/
theorem C4_witness :
    create_framework b0 ⟨"macosx", ["arm64", "x86_64"]⟩
      = ([BuildEvent.frameworkAssembly ⟨"macosx", ["arm64", "x86_64"]⟩,
          BuildEvent.mkDir "LIB/apple_xcframework/macosx-arm64-x86_64/LibXray.framework",
          BuildEvent.copyFile "BUILD/template/AppleGoInfo.plist"
            "LIB/apple_xcframework/macosx-arm64-x86_64/LibXray.framework",
          BuildEvent.mkDir "LIB/apple_xcframework/macosx-arm64-x86_64/LibXray.framework/Headers",
          BuildEvent.copyFile "LIB/apple_xcframework/macosx-arm64/libXray.h"
            "LIB/apple_xcframework/macosx-arm64-x86_64/LibXray.framework/Headers",
          BuildEvent.copyFile "LIB/apple_xcframework/macosx-arm64-x86_64/libXray.a"
            "LIB/apple_xcframework/macosx-arm64-x86_64/LibXray.framework/LibXray"],
         Except.ok ()) := by
  rw [(C4_create_framework_contents b0 ⟨"macosx", ["arm64", "x86_64"]⟩ "arm64" ["x86_64"]
    rfl).1]
  rfl

/-- C7: every compile step of the pipeline mutates the process-global
working directory as the side channel handing the library-source location
to the spawned compiler: whenever the SDK locator of a compile succeeds,
`run_build_cmd` emits a change of the ambient working directory to the
library directory immediately before spawning the compiler. -/
theorem C7_run_build_cmd_mutates_cwd (env : Env) (b : Builder)
    (platform go_arch apple_arch sdk min_version : String)
    (h : env.retcode (xcrunCmd sdk) = 0) :
    (run_build_cmd env b platform go_arch apple_arch sdk min_version).1
      = [BuildEvent.mkDir (pathJoin b.framework_dir (sdk ++ "-" ++ apple_arch)),
         BuildEvent.runCmd (xcrunCmd sdk) [],
         BuildEvent.chdir b.lib_dir,
         BuildEvent.runCmd (goCmd b sdk apple_arch)
           (run_env platform go_arch apple_arch sdk min_version
             (replace_newlines (env.stdout (xcrunCmd sdk))))]
    ∧ BuildEvent.chdir b.lib_dir
        ∈ (run_build_cmd env b platform go_arch apple_arch sdk min_version).1 := by
  have h1 : (run_build_cmd env b platform go_arch apple_arch sdk min_version).1
      = [BuildEvent.mkDir (pathJoin b.framework_dir (sdk ++ "-" ++ apple_arch)),
         BuildEvent.runCmd (xcrunCmd sdk) [],
         BuildEvent.chdir b.lib_dir,
         BuildEvent.runCmd (goCmd b sdk apple_arch)
           (run_env platform go_arch apple_arch sdk min_version
             (replace_newlines (env.stdout (xcrunCmd sdk))))] := by
    simp [run_build_cmd, get_sdk_dir_path, h]
  refine ⟨h1, ?_⟩
  rw [h1]
  simp

/-- C7 witness: the very first compile of a build (ios arm64 iphoneos)
changes the ambient working directory to the library directory. -/
theorem C7_witness :
    BuildEvent.chdir "LIB"
      ∈ (run_build_cmd env_allok b0 "ios" "arm64" "arm64" "iphoneos" "15.0").1 :=
  (C7_run_build_cmd_mutates_cwd env_allok b0 "ios" "arm64" "arm64" "iphoneos" "15.0" rfl).2

/-- C1: for every non-empty input list sharing one sdk, the merge result
carries that sdk and the architecture union, sorted alphabetically and
without duplicates; the result and the fat-binary command line are
independent of the input order; and the command line lists one
`-arch <arch> <path>` pair per architecture in that same sorted order
followed by the output path. -/
theorem C1_merge_sorted_union (b : Builder) (libs : List AppleStaticLib) (s : String)
    (hne : libs ≠ []) (hsdk : ∀ l ∈ libs, l.sdk = s) :
    ((mergeArtifact libs).sdk = s ∧ (mergeArtifact libs).apple_archs = merge_arches libs)
    ∧ List.Sorted (· ≤ ·) (merge_arches libs)
    ∧ (merge_arches libs).Nodup
    ∧ (∀ a, a ∈ merge_arches libs ↔ ∃ l ∈ libs, a ∈ l.apple_archs)
    ∧ (∀ libs' : List AppleStaticLib, libs'.Perm libs →
        merge_arches libs' = merge_arches libs ∧ mergeArtifact libs' = mergeArtifact libs
          ∧ mergeCmd b libs' = mergeCmd b libs)
    ∧ mergeCmd b libs
      = ["lipo", "-create"]
        ++ (merge_arches libs).flatMap (fun arch =>
             ["-arch", arch, pathJoin (pathJoin b.framework_dir (s ++ "-" ++ arch)) lib_file])
        ++ ["-output",
            pathJoin (pathJoin b.framework_dir
              (s ++ "-" ++ String.intercalate "-" (merge_arches libs))) lib_file] := by
  have hhead : ((libs.headD ⟨"", []⟩).sdk) = s := hsdk _ (headD_mem hne _)
  refine ⟨⟨hhead, rfl⟩, ?_, nodup_merge_arches libs, fun a => mem_merge_arches, ?_, ?_⟩
  · exact (sorted_merge_arches libs).imp (fun hab => String.le_iff_toList_le.mpr hab)
  · intro libs' hp
    have hne' : libs' ≠ [] := by
      intro h0
      exact hne (by rw [h0] at hp; exact hp.symm.eq_nil)
    have he := merge_arches_perm hp
    have hhead' : ((libs'.headD ⟨"", []⟩).sdk) = s := hsdk _ (hp.subset (headD_mem hne' _))
    refine ⟨he, ?_, ?_⟩
    · simp only [mergeArtifact, he, hhead, hhead']
    · simp only [mergeCmd, mergeOutputFile, he, hhead, hhead']
  · simp only [mergeCmd, mergeOutputFile, hhead]

/-- C1 witness: merging the macosx x86_64 and arm64 single-architecture
artifacts gives the sorted union ["arm64", "x86_64"] whatever the input
order, and the fat-binary invocation lists -arch arm64 before
-arch x86_64. -/
theorem C1_witness :
    List.Sorted (· ≤ ·)
      (merge_arches [⟨"macosx", ["x86_64"]⟩, ⟨"macosx", ["arm64"]⟩])
    ∧ merge_arches [(⟨"macosx", ["arm64"]⟩ : AppleStaticLib), ⟨"macosx", ["x86_64"]⟩]
        = merge_arches [⟨"macosx", ["x86_64"]⟩, ⟨"macosx", ["arm64"]⟩]
    ∧ merge_arches [(⟨"macosx", ["x86_64"]⟩ : AppleStaticLib), ⟨"macosx", ["arm64"]⟩]
        = ["arm64", "x86_64"]
    ∧ mergeCmd b0 [⟨"macosx", ["x86_64"]⟩, ⟨"macosx", ["arm64"]⟩]
        = ["lipo", "-create",
           "-arch", "arm64", "LIB/apple_xcframework/macosx-arm64/libXray.a",
           "-arch", "x86_64", "LIB/apple_xcframework/macosx-x86_64/libXray.a",
           "-output", "LIB/apple_xcframework/macosx-arm64-x86_64/libXray.a"] := by
  have h := C1_merge_sorted_union b0 [⟨"macosx", ["x86_64"]⟩, ⟨"macosx", ["arm64"]⟩]
    "macosx" (by decide) (by decide)
  exact ⟨h.2.1, (h.2.2.2.2.1 _ (by decide)).1, by decide, by decide⟩

/-- C10 counterexample: `merge_static_lib` applied to the non-empty input
list holding one artifact with an empty architecture list returns, without
error, an artifact whose architecture list is empty; so not every merge
result from a non-empty input list has non-empty architectures. -/
theorem C10_counterexample :
    ([(⟨"macosx", []⟩ : AppleStaticLib)] ≠ ([] : List AppleStaticLib))
    ∧ (mergeArtifact [(⟨"macosx", []⟩ : AppleStaticLib)]).apple_archs = []
    ∧ (merge_static_lib env_allok b0 [⟨"macosx", []⟩]).2 = Except.ok ⟨"macosx", []⟩ := by
  refine ⟨by decide, by decide, ?_⟩
  simp [merge_static_lib, env_allok,
    show mergeArtifact [(⟨"macosx", []⟩ : AppleStaticLib)] = ⟨"macosx", []⟩ from by decide]

/-! Helper lemmas locating the framework-assembly markers in a trace. -/

/-- Unpacking membership in the trace of two sequenced stages. -/
lemma mem_stepBind {α β : Type} {ev : BuildEvent} {x : List BuildEvent × Except String α}
    {f : α → List BuildEvent × Except String β} (h : ev ∈ (stepBind x f).1) :
    ev ∈ x.1 ∨ ∃ a, x.2 = Except.ok a ∧ ev ∈ (f a).1 := by
  rcases x with ⟨tr, r⟩
  cases r with
  | error e => exact Or.inl h
  | ok a =>
    have h' : ev ∈ tr ++ (f a).1 := h
    rcases List.mem_append.mp h' with h1 | h1
    · exact Or.inl h1
    · exact Or.inr ⟨a, rfl, h1⟩

/-- The SDK resolver emits no framework-assembly marker. -/
lemma no_marker_get_sdk (env : Env) (sdk : String) (lib : AppleStaticLib) :
    BuildEvent.frameworkAssembly lib ∉ (get_sdk_dir_path env sdk).1 := by
  simp [get_sdk_dir_path]

/-- A compile emits no framework-assembly marker. -/
lemma no_marker_run_build_cmd (env : Env) (b : Builder)
    (platform go_arch apple_arch sdk min_version : String) (lib : AppleStaticLib) :
    BuildEvent.frameworkAssembly lib
      ∉ (run_build_cmd env b platform go_arch apple_arch sdk min_version).1 := by
  by_cases hc : env.retcode (xcrunCmd sdk) ≠ 0 <;>
    simp [run_build_cmd, get_sdk_dir_path, hc]

/-- A group compile loop emits no framework-assembly marker. -/
lemma no_marker_build_targets (env : Env) (b : Builder) (ts : List AppleTarget)
    (lib : AppleStaticLib) :
    BuildEvent.frameworkAssembly lib ∉ (build_targets env b ts).1 := by
  induction ts with
  | nil => simp [build_targets]
  | cons t ts ih =>
    intro hmem
    have hrb := no_marker_run_build_cmd env b t.platform t.go_arch t.apple_arch t.sdk
      t.min_version lib
    simp only [build_targets] at hmem
    rcases h1 : run_build_cmd env b t.platform t.go_arch t.apple_arch t.sdk t.min_version
      with ⟨tr, r⟩
    rw [h1] at hmem hrb
    cases r with
    | error e => exact hrb hmem
    | ok a =>
      rcases h2 : build_targets env b ts with ⟨tr2, r2⟩
      rw [h2] at hmem
      rcases List.mem_append.mp hmem with h3 | h3
      · exact hrb h3
      · rw [h2] at ih
        exact ih h3

/-- A fat-binary merge emits no framework-assembly marker. -/
lemma no_marker_merge (env : Env) (b : Builder) (libs : List AppleStaticLib)
    (lib : AppleStaticLib) :
    BuildEvent.frameworkAssembly lib ∉ (merge_static_lib env b libs).1 := by
  cases libs <;> simp [merge_static_lib]

/-- List indexing emits no framework-assembly marker. -/
lemma no_marker_listGet0 {α : Type} (l : List α) (lib : AppleStaticLib) :
    BuildEvent.frameworkAssembly lib ∉ (listGet0 l).1 := by
  cases l <;> simp [listGet0]

/-- The pre-build hooks emit no framework-assembly marker. -/
lemma no_marker_before_build (lib : AppleStaticLib) :
    BuildEvent.frameworkAssembly lib ∉ before_build.1 := by
  simp [before_build]

/-- The post-build hooks emit no framework-assembly marker. -/
lemma no_marker_after_build (lib : AppleStaticLib) :
    BuildEvent.frameworkAssembly lib ∉ after_build.1 := by
  simp [after_build]

/-- The xcframework stage emits no framework-assembly marker. -/
lemma no_marker_xcframework (env : Env) (b : Builder) (libs : List AppleStaticLib)
    (lib : AppleStaticLib) :
    BuildEvent.frameworkAssembly lib ∉ (create_xcframework env b libs).1 := by
  simp [create_xcframework]

/-- The only framework-assembly marker a framework-assembly stage emits is
for its own artifact. -/
lemma marker_create_framework {b : Builder} {l lib : AppleStaticLib}
    (h : BuildEvent.frameworkAssembly lib ∈ (create_framework b l).1) : lib = l := by
  rcases hl : l.apple_archs with _ | ⟨a, rest⟩ <;> simp [create_framework, hl] at h <;>
    exact h

/-- A successful group compile loop returns exactly the per-target
single-architecture artifacts. -/
lemma build_targets_ok_val {env : Env} {b : Builder} {ts : List AppleTarget}
    {libs : List AppleStaticLib} (h : (build_targets env b ts).2 = Except.ok libs) :
    libs = group_libs ts := by
  induction ts generalizing libs with
  | nil =>
    simp only [build_targets] at h
    injection h with h
    simp [group_libs, ← h]
  | cons t ts ih =>
    simp only [build_targets] at h
    rcases h1 : run_build_cmd env b t.platform t.go_arch t.apple_arch t.sdk t.min_version
      with ⟨tr, r⟩
    rw [h1] at h
    cases r with
    | error e => exact absurd h (by simp)
    | ok a =>
      rcases h2 : build_targets env b ts with ⟨tr2, r2⟩
      rw [h2] at h
      cases r2 with
      | error e => exact absurd h (by simp [Except.map])
      | ok libs0 =>
        have hv : libs0 = group_libs ts := by
          have : (build_targets env b ts).2 = Except.ok libs0 := by rw [h2]
          exact ih this
        simp only [Except.map] at h
        injection h with h
        simp [← h, hv, group_libs]

/-- A successful merge returns exactly the merged artifact. -/
lemma merge_ok_val {env : Env} {b : Builder} {libs : List AppleStaticLib}
    {a : AppleStaticLib} (h : (merge_static_lib env b libs).2 = Except.ok a) :
    a = mergeArtifact libs := by
  cases libs with
  | nil => exact absurd h (by simp [merge_static_lib])
  | cons l0 rest =>
    simp only [merge_static_lib] at h
    by_cases hc : env.retcode (mergeCmd b (l0 :: rest)) ≠ 0
    · simp [hc] at h
    · simp [hc] at h
      exact h.symm

/-- Successful indexing of the head returns the head. -/
lemma listGet0_ok_val {α : Type} {x : α} {xs : List α} {a : α}
    (h : (listGet0 (x :: xs)).2 = Except.ok a) : a = x := by
  simp only [listGet0] at h
  injection h with h
  exact h.symm

/-- C10 amended: the first-architecture access in `create_framework` is
safe for every artifact with a non-empty architecture list; every artifact
produced by `build_targets` has a non-empty architecture list; every
artifact produced by `merge_static_lib` from a non-empty input list whose
members all have non-empty architecture lists has a non-empty architecture
list; and every artifact the build pipeline hands to the
framework-assembly stage is one of the five pipeline artifacts, all with
non-empty architecture lists, so the access never fails in the pipeline. -/
theorem C10_first_arch_access_safe (env : Env) (b : Builder) :
    (∀ lib : AppleStaticLib, lib.apple_archs ≠ [] →
      (create_framework b lib).2 = Except.ok ())
    ∧ (∀ ts : List AppleTarget, ∀ libs, (build_targets env b ts).2 = Except.ok libs →
        ∀ l ∈ libs, l.apple_archs ≠ [])
    ∧ (∀ libs : List AppleStaticLib, libs ≠ [] → (∀ l ∈ libs, l.apple_archs ≠ []) →
        (mergeArtifact libs).apple_archs ≠ [])
    ∧ (∀ lib, BuildEvent.frameworkAssembly lib ∈ (build env b).1 →
        lib ∈ pipeline_libs ∧ lib.apple_archs ≠ []) := by
  refine ⟨?_, ?_, ?_, ?_⟩
  · intro lib h
    rcases hl : lib.apple_archs with _ | ⟨a, rest⟩
    · exact absurd hl h
    · simp [create_framework, hl]
  · intro ts libs h l hl
    rw [build_targets_ok_val h] at hl
    rcases List.mem_map.mp hl with ⟨t, _, rfl⟩
    simp
  · intro libs hne hall
    cases libs with
    | nil => exact absurd rfl hne
    | cons l0 rest =>
      have h0 := hall l0 (List.mem_cons_self l0 rest)
      rcases ha : l0.apple_archs with _ | ⟨a, as⟩
      · exact absurd ha h0
      · have hmem0 : a ∈ l0.apple_archs := by
          rw [ha]
          exact List.mem_cons_self a as
        have hm : a ∈ merge_arches (l0 :: rest) :=
          mem_merge_arches.mpr ⟨l0, List.mem_cons_self l0 rest, hmem0⟩
        show merge_arches (l0 :: rest) ≠ []
        exact List.ne_nil_of_mem hm
  · intro lib hmem
    unfold build at hmem
    rcases mem_stepBind hmem with h | ⟨u1, _, hmem⟩
    · exact absurd h (no_marker_before_build lib)
    rcases mem_stepBind hmem with h | ⟨ios_libs, hios, hmem⟩
    · exact absurd h (no_marker_build_targets env b ios_targets lib)
    have hiosv := build_targets_ok_val hios
    subst hiosv
    rcases mem_stepBind hmem with h | ⟨ios_lib, hios0, hmem⟩
    · exact absurd h (no_marker_listGet0 _ lib)
    have hios0v : ios_lib = ⟨"iphoneos", ["arm64"]⟩ := by
      have hg : group_libs ios_targets = [⟨"iphoneos", ["arm64"]⟩] := by decide
      rw [hg] at hios0
      exact listGet0_ok_val hios0
    subst hios0v
    rcases mem_stepBind hmem with h | ⟨u2, _, hmem⟩
    · have hv := marker_create_framework h
      subst hv
      exact ⟨by decide, by decide⟩
    rcases mem_stepBind hmem with h | ⟨sim_libs, hsim, hmem⟩
    · exact absurd h (no_marker_build_targets env b ios_simulator_targets lib)
    have hsimv := build_targets_ok_val hsim
    subst hsimv
    rcases mem_stepBind hmem with h | ⟨sim_lib, hsimm, hmem⟩
    · exact absurd h (no_marker_merge env b _ lib)
    have hsimmv := merge_ok_val hsimm
    subst hsimmv
    rcases mem_stepBind hmem with h | ⟨u3, _, hmem⟩
    · have hv := marker_create_framework h
      subst hv
      exact ⟨by decide, by decide⟩
    rcases mem_stepBind hmem with h | ⟨macos_libs, hmac, hmem⟩
    · exact absurd h (no_marker_build_targets env b macos_targets lib)
    have hmacv := build_targets_ok_val hmac
    subst hmacv
    rcases mem_stepBind hmem with h | ⟨macos_lib, hmacm, hmem⟩
    · exact absurd h (no_marker_merge env b _ lib)
    have hmacmv := merge_ok_val hmacm
    subst hmacmv
    rcases mem_stepBind hmem with h | ⟨u4, _, hmem⟩
    · have hv := marker_create_framework h
      subst hv
      exact ⟨by decide, by decide⟩
    rcases mem_stepBind hmem with h | ⟨tvos_libs, htv, hmem⟩
    · exact absurd h (no_marker_build_targets env b tvos_targets lib)
    have htvv := build_targets_ok_val htv
    subst htvv
    rcases mem_stepBind hmem with h | ⟨tvos_lib, htv0, hmem⟩
    · exact absurd h (no_marker_listGet0 _ lib)
    have htv0v : tvos_lib = ⟨"appletvos", ["arm64"]⟩ := by
      have hg : group_libs tvos_targets = [⟨"appletvos", ["arm64"]⟩] := by decide
      rw [hg] at htv0
      exact listGet0_ok_val htv0
    subst htv0v
    rcases mem_stepBind hmem with h | ⟨u5, _, hmem⟩
    · have hv := marker_create_framework h
      subst hv
      exact ⟨by decide, by decide⟩
    rcases mem_stepBind hmem with h | ⟨tvsim_libs, htvs, hmem⟩
    · exact absurd h (no_marker_build_targets env b tv_simulator_targets lib)
    have htvsv := build_targets_ok_val htvs
    subst htvsv
    rcases mem_stepBind hmem with h | ⟨tvsim_lib, htvsm, hmem⟩
    · exact absurd h (no_marker_merge env b _ lib)
    have htvsmv := merge_ok_val htvsm
    subst htvsmv
    rcases mem_stepBind hmem with h | ⟨u6, _, hmem⟩
    · have hv := marker_create_framework h
      subst hv
      exact ⟨by decide, by decide⟩
    rcases mem_stepBind hmem with h | ⟨u7, _, hmem⟩
    · exact absurd h (no_marker_after_build lib)
    exact absurd hmem (no_marker_xcframework env b _ lib)

/-- C10 witness: the safety facts instantiated on concrete pipeline
artifacts of a fully successful run. -/
theorem C10_witness :
    (create_framework b0 ⟨"iphoneos", ["arm64"]⟩).2 = Except.ok ()
    ∧ ((mergeArtifact [(⟨"iphonesimulator", ["x86_64"]⟩ : AppleStaticLib),
          ⟨"iphonesimulator", ["arm64"]⟩]).apple_archs ≠ [])
    ∧ ((⟨"iphoneos", ["arm64"]⟩ : AppleStaticLib) ∈ pipeline_libs
        ∧ (⟨"iphoneos", ["arm64"]⟩ : AppleStaticLib).apple_archs ≠ []) := by
  have h := C10_first_arch_access_safe env_allok b0
  exact ⟨h.1 _ (by decide), h.2.2.1 _ (by decide) (by decide), h.2.2.2 _ (by decide)⟩

/-- C2: a fully successful run performs exactly five framework-assembly
operations, one per platform group in the fixed order ios-device,
ios-simulator, macos, tvos-device, tvos-simulator, with a merge (lipo)
step exactly for the three groups holding more than one target, and
exactly one xcframework-assembly operation whose framework inputs are
passed in that same fixed order. -/
theorem C2_build_counts (env : Env) (b : Builder) (hok : ∀ c, env.retcode c = 0) :
    (build env b).2 = Except.ok ()
    ∧ (build env b).1.countP BuildEvent.isFrameworkAssembly = 5
    ∧ (build env b).1.filterMap BuildEvent.frameworkLib
        = [⟨"iphoneos", ["arm64"]⟩, ⟨"iphonesimulator", ["arm64", "x86_64"]⟩,
           ⟨"macosx", ["arm64", "x86_64"]⟩, ⟨"appletvos", ["arm64"]⟩,
           ⟨"appletvsimulator", ["arm64", "x86_64"]⟩]
    ∧ (build env b).1.countP BuildEvent.isXCFrameworkAssembly = 1
    ∧ (build env b).1.filterMap BuildEvent.xcfInputs
        = [[frameworkBundleDir b ⟨"iphoneos", ["arm64"]⟩,
            frameworkBundleDir b ⟨"iphonesimulator", ["arm64", "x86_64"]⟩,
            frameworkBundleDir b ⟨"macosx", ["arm64", "x86_64"]⟩,
            frameworkBundleDir b ⟨"appletvos", ["arm64"]⟩,
            frameworkBundleDir b ⟨"appletvsimulator", ["arm64", "x86_64"]⟩]]
    ∧ (build env b).1.filterMap BuildEvent.xcodebuildCmd
        = [["xcodebuild", "-create-xcframework",
            "-framework", frameworkBundleDir b ⟨"iphoneos", ["arm64"]⟩,
            "-framework", frameworkBundleDir b ⟨"iphonesimulator", ["arm64", "x86_64"]⟩,
            "-framework", frameworkBundleDir b ⟨"macosx", ["arm64", "x86_64"]⟩,
            "-framework", frameworkBundleDir b ⟨"appletvos", ["arm64"]⟩,
            "-framework", frameworkBundleDir b ⟨"appletvsimulator", ["arm64", "x86_64"]⟩,
            "-output", pathJoin b.lib_dir "LibXray.xcframework"]]
    ∧ (build env b).1.countP BuildEvent.isGoBuild = 8
    ∧ (build env b).1.countP BuildEvent.isLipo = 3 := by
  have e4' : merge_arches [⟨"iphonesimulator", ["x86_64"]⟩, ⟨"iphonesimulator", ["arm64"]⟩]
      = ["arm64", "x86_64"] := by decide
  have e5' : merge_arches [⟨"macosx", ["x86_64"]⟩, ⟨"macosx", ["arm64"]⟩]
      = ["arm64", "x86_64"] := by decide
  have e6' : merge_arches [⟨"appletvsimulator", ["x86_64"]⟩, ⟨"appletvsimulator", ["arm64"]⟩]
      = ["arm64", "x86_64"] := by decide
  simp [build, stepBind, before_build, after_build, build_targets, run_build_cmd,
    get_sdk_dir_path, merge_static_lib, create_framework, create_xcframework, listGet0, hok,
    ios_targets, ios_simulator_targets, macos_targets, tvos_targets, tv_simulator_targets,
    Except.map, e4', e5', e6',
    mergeCmd, goCmd, xcrunCmd, xcframeworkCmd, mergeArtifact, mergeOutputFile,
    BuildEvent.isFrameworkAssembly, BuildEvent.isXCFrameworkAssembly,
    BuildEvent.isGoBuild, BuildEvent.isLipo, BuildEvent.frameworkLib,
    BuildEvent.xcfInputs, BuildEvent.xcodebuildCmd,
    List.countP_cons, List.countP_append, List.filterMap_cons, List.filterMap_append]

/-- C2 witness: the counts and the xcframework input order of a concrete
fully successful run. -/
theorem C2_witness :
    (build env_allok b0).2 = Except.ok ()
    ∧ (build env_allok b0).1.countP BuildEvent.isFrameworkAssembly = 5
    ∧ (build env_allok b0).1.countP BuildEvent.isXCFrameworkAssembly = 1
    ∧ (build env_allok b0).1.countP BuildEvent.isLipo = 3
    ∧ (build env_allok b0).1.filterMap BuildEvent.xcfInputs
        = [["LIB/apple_xcframework/iphoneos-arm64/LibXray.framework",
            "LIB/apple_xcframework/iphonesimulator-arm64-x86_64/LibXray.framework",
            "LIB/apple_xcframework/macosx-arm64-x86_64/LibXray.framework",
            "LIB/apple_xcframework/appletvos-arm64/LibXray.framework",
            "LIB/apple_xcframework/appletvsimulator-arm64-x86_64/LibXray.framework"]] := by
  have h := C2_build_counts env_allok b0 (fun c => rfl)
  refine ⟨h.1, h.2.1, h.2.2.2.1, h.2.2.2.2.2.2.2, ?_⟩
  rw [h.2.2.2.2.1]
  decide

/-- C3: if the compile of the target at position `j` of platform group
`g` exits non-zero while everything spawned before it succeeded, the build
raises immediately: the framework bundles assembled are exactly those of
the earlier groups (none for the failing group), the xcframework assembly
is never entered, no compile beyond the failing one is spawned, and no
merge beyond the earlier groups is spawned; the run ends in the error
terminal state. -/
theorem C3_compile_failure_aborts (env : Env) (b : Builder) (g j : Nat)
    (hg : g < 5) (hj : j < (groups.getD g []).length)
    (hok : ∀ c ∈ cmds_before_compile b g j, env.retcode c = 0)
    (hfail : env.retcode (failing_go_cmd b g j) ≠ 0) :
    (∃ e, (build env b).2 = Except.error e)
    ∧ (build env b).1.filterMap BuildEvent.frameworkLib = pipeline_libs.take g
    ∧ (build env b).1.countP BuildEvent.isXCFrameworkAssembly = 0
    ∧ (build env b).1.countP BuildEvent.isGoBuild
        = ((groups.take g).map List.length).sum + j + 1
    ∧ (build env b).1.countP BuildEvent.isLipo
        = ((groups.take g).filter (fun ts => 1 < ts.length)).length := by
  have e4' : merge_arches [⟨"iphonesimulator", ["x86_64"]⟩, ⟨"iphonesimulator", ["arm64"]⟩]
      = ["arm64", "x86_64"] := by decide
  have e5' : merge_arches [⟨"macosx", ["x86_64"]⟩, ⟨"macosx", ["arm64"]⟩]
      = ["arm64", "x86_64"] := by decide
  have e6' : merge_arches [⟨"appletvsimulator", ["x86_64"]⟩, ⟨"appletvsimulator", ["arm64"]⟩]
      = ["arm64", "x86_64"] := by decide
  interval_cases g
  · simp [groups, ios_targets] at hj
    subst hj
    simp [cmds_before_compile, failing_go_cmd, target_at, groups, group_cmds,
      compile_cmds, ios_targets, ios_simulator_targets, macos_targets, tvos_targets,
      tv_simulator_targets, group_libs, mergeCmd, mergeOutputFile, e4', e5', e6',
      xcrunCmd, goCmd] at hok hfail
    simp [build, stepBind, before_build, after_build, build_targets, run_build_cmd,
      get_sdk_dir_path, merge_static_lib, create_framework, create_xcframework, listGet0,
      ios_targets, ios_simulator_targets, macos_targets, tvos_targets, tv_simulator_targets,
      Except.map, e4', e5', e6', hok, hfail, pipeline_libs, group_libs, groups,
      mergeCmd, goCmd, xcrunCmd, xcframeworkCmd, mergeArtifact, mergeOutputFile,
      BuildEvent.isFrameworkAssembly, BuildEvent.isXCFrameworkAssembly,
      BuildEvent.isGoBuild, BuildEvent.isLipo, BuildEvent.frameworkLib,
      List.countP_cons, List.countP_append, List.filterMap_cons, List.filterMap_append]
  · simp [groups, ios_simulator_targets] at hj
    interval_cases j
    · simp [cmds_before_compile, failing_go_cmd, target_at, groups, group_cmds,
        compile_cmds, ios_targets, ios_simulator_targets, macos_targets, tvos_targets,
        tv_simulator_targets, group_libs, mergeCmd, mergeOutputFile, e4', e5', e6',
        xcrunCmd, goCmd] at hok hfail
      simp [build, stepBind, before_build, after_build, build_targets, run_build_cmd,
        get_sdk_dir_path, merge_static_lib, create_framework, create_xcframework, listGet0,
        ios_targets, ios_simulator_targets, macos_targets, tvos_targets, tv_simulator_targets,
        Except.map, e4', e5', e6', hok, hfail, pipeline_libs, group_libs, groups,
        mergeCmd, goCmd, xcrunCmd, xcframeworkCmd, mergeArtifact, mergeOutputFile,
        BuildEvent.isFrameworkAssembly, BuildEvent.isXCFrameworkAssembly,
        BuildEvent.isGoBuild, BuildEvent.isLipo, BuildEvent.frameworkLib,
        List.countP_cons, List.countP_append, List.filterMap_cons, List.filterMap_append]
    · simp [cmds_before_compile, failing_go_cmd, target_at, groups, group_cmds,
        compile_cmds, ios_targets, ios_simulator_targets, macos_targets, tvos_targets,
        tv_simulator_targets, group_libs, mergeCmd, mergeOutputFile, e4', e5', e6',
        xcrunCmd, goCmd] at hok hfail
      simp [build, stepBind, before_build, after_build, build_targets, run_build_cmd,
        get_sdk_dir_path, merge_static_lib, create_framework, create_xcframework, listGet0,
        ios_targets, ios_simulator_targets, macos_targets, tvos_targets, tv_simulator_targets,
        Except.map, e4', e5', e6', hok, hfail, pipeline_libs, group_libs, groups,
        mergeCmd, goCmd, xcrunCmd, xcframeworkCmd, mergeArtifact, mergeOutputFile,
        BuildEvent.isFrameworkAssembly, BuildEvent.isXCFrameworkAssembly,
        BuildEvent.isGoBuild, BuildEvent.isLipo, BuildEvent.frameworkLib,
        List.countP_cons, List.countP_append, List.filterMap_cons, List.filterMap_append]
  · simp [groups, macos_targets] at hj
    interval_cases j
    · simp [cmds_before_compile, failing_go_cmd, target_at, groups, group_cmds,
        compile_cmds, ios_targets, ios_simulator_targets, macos_targets, tvos_targets,
        tv_simulator_targets, group_libs, mergeCmd, mergeOutputFile, e4', e5', e6',
        xcrunCmd, goCmd] at hok hfail
      simp [build, stepBind, before_build, after_build, build_targets, run_build_cmd,
        get_sdk_dir_path, merge_static_lib, create_framework, create_xcframework, listGet0,
        ios_targets, ios_simulator_targets, macos_targets, tvos_targets, tv_simulator_targets,
        Except.map, e4', e5', e6', hok, hfail, pipeline_libs, group_libs, groups,
        mergeCmd, goCmd, xcrunCmd, xcframeworkCmd, mergeArtifact, mergeOutputFile,
        BuildEvent.isFrameworkAssembly, BuildEvent.isXCFrameworkAssembly,
        BuildEvent.isGoBuild, BuildEvent.isLipo, BuildEvent.frameworkLib,
        List.countP_cons, List.countP_append, List.filterMap_cons, List.filterMap_append]
    · simp [cmds_before_compile, failing_go_cmd, target_at, groups, group_cmds,
        compile_cmds, ios_targets, ios_simulator_targets, macos_targets, tvos_targets,
        tv_simulator_targets, group_libs, mergeCmd, mergeOutputFile, e4', e5', e6',
        xcrunCmd, goCmd] at hok hfail
      simp [build, stepBind, before_build, after_build, build_targets, run_build_cmd,
        get_sdk_dir_path, merge_static_lib, create_framework, create_xcframework, listGet0,
        ios_targets, ios_simulator_targets, macos_targets, tvos_targets, tv_simulator_targets,
        Except.map, e4', e5', e6', hok, hfail, pipeline_libs, group_libs, groups,
        mergeCmd, goCmd, xcrunCmd, xcframeworkCmd, mergeArtifact, mergeOutputFile,
        BuildEvent.isFrameworkAssembly, BuildEvent.isXCFrameworkAssembly,
        BuildEvent.isGoBuild, BuildEvent.isLipo, BuildEvent.frameworkLib,
        List.countP_cons, List.countP_append, List.filterMap_cons, List.filterMap_append]
  · simp [groups, tvos_targets] at hj
    subst hj
    simp [cmds_before_compile, failing_go_cmd, target_at, groups, group_cmds,
      compile_cmds, ios_targets, ios_simulator_targets, macos_targets, tvos_targets,
      tv_simulator_targets, group_libs, mergeCmd, mergeOutputFile, e4', e5', e6',
      xcrunCmd, goCmd] at hok hfail
    simp [build, stepBind, before_build, after_build, build_targets, run_build_cmd,
      get_sdk_dir_path, merge_static_lib, create_framework, create_xcframework, listGet0,
      ios_targets, ios_simulator_targets, macos_targets, tvos_targets, tv_simulator_targets,
      Except.map, e4', e5', e6', hok, hfail, pipeline_libs, group_libs, groups,
      mergeCmd, goCmd, xcrunCmd, xcframeworkCmd, mergeArtifact, mergeOutputFile,
      BuildEvent.isFrameworkAssembly, BuildEvent.isXCFrameworkAssembly,
      BuildEvent.isGoBuild, BuildEvent.isLipo, BuildEvent.frameworkLib,
      List.countP_cons, List.countP_append, List.filterMap_cons, List.filterMap_append]
  · simp [groups, tv_simulator_targets] at hj
    interval_cases j
    · simp [cmds_before_compile, failing_go_cmd, target_at, groups, group_cmds,
        compile_cmds, ios_targets, ios_simulator_targets, macos_targets, tvos_targets,
        tv_simulator_targets, group_libs, mergeCmd, mergeOutputFile, e4', e5', e6',
        xcrunCmd, goCmd] at hok hfail
      simp [build, stepBind, before_build, after_build, build_targets, run_build_cmd,
        get_sdk_dir_path, merge_static_lib, create_framework, create_xcframework, listGet0,
        ios_targets, ios_simulator_targets, macos_targets, tvos_targets, tv_simulator_targets,
        Except.map, e4', e5', e6', hok, hfail, pipeline_libs, group_libs, groups,
        mergeCmd, goCmd, xcrunCmd, xcframeworkCmd, mergeArtifact, mergeOutputFile,
        BuildEvent.isFrameworkAssembly, BuildEvent.isXCFrameworkAssembly,
        BuildEvent.isGoBuild, BuildEvent.isLipo, BuildEvent.frameworkLib,
        List.countP_cons, List.countP_append, List.filterMap_cons, List.filterMap_append]
    · simp [cmds_before_compile, failing_go_cmd, target_at, groups, group_cmds,
        compile_cmds, ios_targets, ios_simulator_targets, macos_targets, tvos_targets,
        tv_simulator_targets, group_libs, mergeCmd, mergeOutputFile, e4', e5', e6',
        xcrunCmd, goCmd] at hok hfail
      simp [build, stepBind, before_build, after_build, build_targets, run_build_cmd,
        get_sdk_dir_path, merge_static_lib, create_framework, create_xcframework, listGet0,
        ios_targets, ios_simulator_targets, macos_targets, tvos_targets, tv_simulator_targets,
        Except.map, e4', e5', e6', hok, hfail, pipeline_libs, group_libs, groups,
        mergeCmd, goCmd, xcrunCmd, xcframeworkCmd, mergeArtifact, mergeOutputFile,
        BuildEvent.isFrameworkAssembly, BuildEvent.isXCFrameworkAssembly,
        BuildEvent.isGoBuild, BuildEvent.isLipo, BuildEvent.frameworkLib,
        List.countP_cons, List.countP_append, List.filterMap_cons, List.filterMap_append]

/-- C3 witness: a concrete run whose very first compile exits non-zero
aborts with an error, assembles no framework bundle, spawns no merge and
no xcframework assembly, and attempts exactly one compile. -/
theorem C3_witness :
    (∃ e, (build env_fail_ios_compile b0).2 = Except.error e)
    ∧ (build env_fail_ios_compile b0).1.filterMap BuildEvent.frameworkLib = []
    ∧ (build env_fail_ios_compile b0).1.countP BuildEvent.isXCFrameworkAssembly = 0
    ∧ (build env_fail_ios_compile b0).1.countP BuildEvent.isGoBuild = 1
    ∧ (build env_fail_ios_compile b0).1.countP BuildEvent.isLipo = 0 := by
  have h := C3_compile_failure_aborts env_fail_ios_compile b0 0 0 (by decide) (by decide)
    (by decide) (by decide)
  simpa using h
